import Mathlib

/-!
QR code generator / parser page (`script.js`).

A shallow embedding of the page script: the module-level variables become the fields of
`Page`, every handler becomes a function `Page → Page`, and everything the script asks of
the browser or of the two QR libraries (clock, encoder, image loading, decoder, file
reader, clipboard) is an oracle in `Env`.  Each call to such a collaborator is recorded,
with its outcome, in the trace `Page.calls`, so that statements about "what was
attempted" are statements about that trace.

Handlers run one at a time: an `await` or a completion callback is modelled as the
continuation running right after the suspended part, with the outcome given by `Env`.
-/

namespace QRPage

deriving instance DecidableEq for Except

/-! ## Built-in string operations used by the script -/

/-- The code points removed by `String.prototype.trim`: ECMAScript WhiteSpace
(TAB, VT, FF, SP, NBSP, ZWNBSP and the space separators) and LineTerminator
(LF, CR, LS, PS). -/
def isTrimChar (c : Char) : Bool :=
  let n := c.toNat
  n == 0x09 || n == 0x0A || n == 0x0B || n == 0x0C || n == 0x0D || n == 0x20 ||
  n == 0xA0 || n == 0x1680 || (0x2000 ≤ n && n ≤ 0x200A) || n == 0x2028 ||
  n == 0x2029 || n == 0x202F || n == 0x205F || n == 0x3000 || n == 0xFEFF

/-- The built-in `str.trim()`: strips leading and trailing white space. -/
def jsTrim (s : String) : String :=
  ⟨((s.data.dropWhile isTrimChar).reverse.dropWhile isTrimChar).reverse⟩

/-- The call `.replace(/\//g, '-')`: every slash becomes a dash. -/
def replaceSlashes (s : String) : String :=
  ⟨s.data.map fun c => if c = '/' then '-' else c⟩

/-- The call `arr.join('\n')` on an array of strings. -/
def joinLines (entries : List String) : String :=
  String.intercalate "\n" entries

/-! ## Data model -/

/-- A selected file (`fileInput.files[0]`), identified by its name. -/
abbrev File := String

/-- A child of the artifact container `qrcodeContainer`. -/
inductive Node where
  /-- An `img` element with its `src` and `alt`. -/
  | img (src alt : String)
  /-- Markup installed through `innerHTML`. -/
  | html (markup : String)
  deriving DecidableEq, Repr

/-- What an anchor click downloads: a URL taken as is, or a blob of text. -/
inductive Href where
  | url (src : String)
  | blob (content mime : String)
  deriving DecidableEq, Repr

/-- One call to a collaborator outside the script, with its outcome. -/
inductive Call where
  /-- A blocking `alert(msg)`. -/
  | alert (msg : String)
  /-- The encoder: `qrcode(0, 'H')`, `addData(text)`, `make()`, `createDataURL(16, 3)`. -/
  | qrcode (text : String) (res : Except String String)
  /-- Waiting for the generated image: `onload` (`true`) or `onerror` (`false`). -/
  | imgLoad (src : String) (loaded : Bool)
  /-- The decoder `jsQR` on the pixels of the image `src`; `none` is `null`. -/
  | jsQR (src : String) (res : Except String (Option String))
  /-- The call `reader.readAsDataURL(file)`: `onload` with a data URL, or `onerror`. -/
  | readAsDataURL (file : File) (res : Option String)
  /-- Mechanism 1, `navigator.clipboard.writeText`. -/
  | writeText (content : String) (res : Except String Unit)
  /-- Mechanism 2, `document.execCommand('copy')` on a hidden textarea. -/
  | execCommand (content : String) (res : Except String Bool)
  /-- Mechanism 3, `navigator.clipboard.write` of a `ClipboardItem`. -/
  | write (content : String) (res : Except String Unit)
  /-- The manual fallback: the log panel is made editable, focused and selected. -/
  | selectLog
  /-- The call `setTimeout(restore, ms)` of the manual fallback. -/
  | setTimeout (ms : Nat)
  /-- A click on a synthetic anchor with `href` and `download`. -/
  | anchorClick (href : Href) (download : String)
  deriving DecidableEq, Repr

/-- The log panel element `debugLog`. -/
structure Panel where
  text : String
  contentEditable : String
  scrolledToBottom : Bool
  deriving DecidableEq, Repr

/-- The session state: the module-level variables of the script and the part of the
page they point to. A `hidden` field says whether the element carries the CSS class
`hidden`. -/
structure Page where
  /-- The array `logEntries`. -/
  logEntries : List String
  /-- The element `debugLog`; `none` while it is `null` (the script tests for it). -/
  debugLog : Option Panel
  generateTabHidden : Bool
  parseTabHidden : Bool
  debugModalHidden : Bool
  downloadBtnHidden : Bool
  /-- The children of `qrcodeContainer`. -/
  qrcodeContainer : List Node
  /-- The value of `parsedTextDiv.textContent`. -/
  parsedText : String
  /-- The value of `textInput.value`. -/
  textInput : String
  /-- The value of `fileInput.files[0]`; `none` is `undefined`. -/
  fileInput : Option File
  /-- Every collaborator call made so far, oldest first. -/
  calls : List Call
  deriving DecidableEq, Repr

/-- The collaborators. Time-dependent answers are indexed: the clock by the number of
entries already logged, the generation collaborators by the attempt number. -/
structure Env where
  /-- The result of `now.toLocaleString('zh-CN', ...)` at the log call number `n`. -/
  toLocaleString : Nat → String
  /-- The encoder at attempt `n` on `text`: a data URL, or the message of what it threw. -/
  qrcode : Nat → String → Except String String
  /-- Whether the image generated at attempt `n` loads (`onload`) or not (`onerror`). -/
  imgOnload : Nat → String → Bool
  /-- Canvas read-back and `jsQR` at attempt `n`: a result (`none` for `null`), or the
  message of what was thrown. -/
  jsQR : Nat → String → Except String (Option String)
  /-- The file reader: a data URL (`onload`) or `none` (`onerror`). -/
  readAsDataURL : File → Option String
  /-- Whether the uploaded image loads. -/
  uploadOnload : String → Bool
  /-- Whether `canvas.getContext('2d')` is non-null in the parse flow. -/
  getContext : Bool
  /-- The decoder on the uploaded image. -/
  jsQRUpload : String → Except String (Option String)
  /-- Whether `navigator.clipboard?.writeText` is there. -/
  hasWriteText : Bool
  /-- Mechanism 1 on `content`: resolves, or rejects with a message. -/
  writeText : String → Except String Unit
  /-- Mechanism 2 on `content`: the value of `execCommand('copy')`, or what was thrown. -/
  execCommand : String → Except String Bool
  /-- Whether `navigator.clipboard?.write` is there. -/
  hasWrite : Bool
  /-- Mechanism 3 on `content`: resolves, or rejects with a message. -/
  write : String → Except String Unit
  /-- The message of the `TypeError` raised by reading a property of `null`. -/
  nullReadMessage : String

/-! ## Log facility -/

/-- Records a collaborator call in the trace. -/
def call (c : Call) (s : Page) : Page :=
  { s with calls := s.calls ++ [c] }

/-- The timestamp of `log`: the localized date with slashes turned into dashes. -/
def timestamp (env : Env) (s : Page) : String :=
  replaceSlashes (env.toLocaleString s.logEntries.length)

/-- The template string that `log` builds for a message at a timestamp. -/
def logEntry (ts message : String) : String :=
  "[" ++ ts ++ "] " ++ message

/-- The function `log(message)`. -/
def log (env : Env) (message : String) (s : Page) : Page :=
  let entry := logEntry (timestamp env s) message
  { s with
    logEntries := s.logEntries ++ [entry]
    debugLog := s.debugLog.map fun p =>
      { p with text := p.text ++ (entry ++ "\n"), scrolledToBottom := true } }

/-- The browser call `alert(msg)`. -/
def alert (msg : String) (s : Page) : Page :=
  call (.alert msg) s

/-! ## Tab controller and debug modal -/

/-- The function `showTab(tabId)`. -/
def showTab (env : Env) (tabId : String) (s : Page) : Page :=
  let s :=
    if tabId = "generate" then
      { s with generateTabHidden := false, parseTabHidden := true }
    else
      { s with generateTabHidden := true, parseTabHidden := false }
  log env ("用户切换了板块：" ++ tabId) s

/-- The function `openDebugModal()`. -/
def openDebugModal (env : Env) (s : Page) : Page :=
  let s := log env "用户点击了查看调试按钮" s
  let s := log env "正在打开调试..." s
  let s := { s with debugModalHidden := false }
  log env "调试框打开成功" s

/-- The function `closeDebugModal()`. -/
def closeDebugModal (env : Env) (s : Page) : Page :=
  let s := log env "用户点击了关闭按钮" s
  let s := log env "正在关闭调试..." s
  let s := { s with debugModalHidden := true }
  log env "调试框关闭成功" s

/-! ## Generation flow -/

/-- The `catch` block of `generateQRCode`. -/
def generateCatch (env : Env) (message : String) (s : Page) : Page :=
  let s := log env ("生成失败：" ++ message) s
  { s with qrcodeContainer := [.html "<p style=\"color:red;\">生成二维码时出错</p>"] }

/-- The function `generateQRCode(retryCount, maxRetries)`. The retry is the function
calling itself with `retryCount + 1`; nothing follows that call in the caller, so the
callee simply runs to its end. An image that fails to load rejects the awaited promise
with an event, whose `message` is `undefined`. -/
def generateQRCode (env : Env) (retryCount maxRetries : Nat) (s : Page) : Page :=
  let s := log env "用户点击了生成按钮" s
  let s := log env "开始生成二维码..." s
  let text := jsTrim s.textInput
  if text = "" then
    let s := log env "获取输入框文本，失败：输入框为空" s
    alert "请输入文本" s
  else
    let s := log env "获取输入框文本，成功" s
    let s := { s with qrcodeContainer := [], downloadBtnHidden := true }
    let s := call (.qrcode text (env.qrcode retryCount text)) s
    match env.qrcode retryCount text with
    | .error message => generateCatch env message s
    | .ok src =>
      let s := call (.imgLoad src (env.imgOnload retryCount src)) s
      if env.imgOnload retryCount src then
        let s := { s with qrcodeContainer := s.qrcodeContainer ++ [.img src "生成的二维码"] }
        let s := log env "生成二维码，成功" s
        let s := call (.jsQR src (env.jsQR retryCount src)) s
        match env.jsQR retryCount src with
        | .error message => generateCatch env message s
        | .ok code =>
          if code = some text then
            let s := log env "自动解析验证成功" s
            { s with downloadBtnHidden := false }
          else
            let s := log env ("自动验证失败" ++
              (if retryCount < maxRetries then "，准备重试..." else "，已达最大重试次数")) s
            if retryCount < maxRetries then
              generateQRCode env (retryCount + 1) maxRetries s
            else
              { s with qrcodeContainer :=
                  [.html "<p style=\"color:red;\">二维码生成验证失败，请重试</p>"] }
      else
        generateCatch env "undefined" s
termination_by maxRetries - retryCount

/-- The first `img` among the children: `qrcodeContainer.querySelector('img')`. -/
def querySelectorImg : List Node → Option String
  | [] => none
  | .img src _ :: _ => some src
  | .html _ :: rest => querySelectorImg rest

/-- The function `downloadQRCode()`. -/
def downloadQRCode (env : Env) (s : Page) : Page :=
  match querySelectorImg s.qrcodeContainer with
  | some url =>
    let s := call (.anchorClick (.url url) "qrcode.png") s
    let s := log env "用户点击了下载二维码图片按钮" s
    log env "下载二维码图片，成功" s
  | none => log env "下载失败：未找到二维码图片" s

/-! ## Parse flow -/

/-- The function `parseQRCode()`, with the `reader.onload` / `reader.onerror` and
`img.onload` / `img.onerror` callbacks run in place. An exception inside a callback is
not caught by the script and ends the callback there. -/
def parseQRCode (env : Env) (s : Page) : Page :=
  let s := log env "用户点击了解析二维码按钮" s
  let s := log env "开始解析二维码..." s
  let s := { s with parsedText := "" }
  match s.fileInput with
  | none =>
    let s := log env "上传文件，失败：未选择文件" s
    alert "请选择图片文件" s
  | some file =>
    let s := log env "上传文件，成功" s
    let s := call (.readAsDataURL file (env.readAsDataURL file)) s
    match env.readAsDataURL file with
    | none =>
      let s := log env "读取文件失败" s
      { s with parsedText := "文件读取失败" }
    | some url =>
      let s := log env "读取文件，成功" s
      let s := call (.imgLoad url (env.uploadOnload url)) s
      if env.uploadOnload url then
        let s := log env "加载图片，成功" s
        if env.getContext then
          let s := call (.jsQR url (env.jsQRUpload url)) s
          match env.jsQRUpload url with
          | .error _ => s
          | .ok (some data) =>
            let s := log env "解析二维码，成功" s
            { s with parsedText := "解析结果：" ++ data }
          | .ok none =>
            let s := log env "解析二维码，失败" s
            { s with parsedText := "无法解析二维码" }
        else
          let s := log env "获取 canvas 上下文失败" s
          { s with parsedText := "无法创建画布上下文" }
      else
        let s := log env "加载图片失败" s
        { s with parsedText := "图片加载失败" }

/-! ## Log export and clipboard copy -/

/-- The function `downloadLog()`. -/
def downloadLog (env : Env) (s : Page) : Page :=
  let s := log env "用户点击了下载日志文件按钮" s
  let logContent := joinLines s.logEntries
  let s := call (.anchorClick (.blob logContent "text/plain") "debug-log.log") s
  log env "日志文件下载成功，文件名：debug-log.log" s

/-- Method 1 of `copyLog` (`navigator.clipboard.writeText`), entered with
`success = false`; returns the new state and the new value of `success`. -/
def copyMethod1 (env : Env) (logContent : String) (s : Page) : Page × Bool :=
  if env.hasWriteText then
    let s := call (.writeText logContent (env.writeText logContent)) s
    match env.writeText logContent with
    | .ok _ => (log env "方法1：现代API复制成功" s, true)
    | .error message => (log env ("方法1失败：" ++ message) s, false)
  else (s, false)

/-- Method 2 of `copyLog` (`execCommand('copy')`), guarded by `!success`. A `false`
result is turned into an exception by the script and logged like one. -/
def copyMethod2 (env : Env) (logContent : String) (st : Page × Bool) : Page × Bool :=
  if !st.2 then
    let s := call (.execCommand logContent (env.execCommand logContent)) st.1
    match env.execCommand logContent with
    | .ok true => (log env "方法2：execCommand复制成功" s, true)
    | .ok false => (log env ("方法2失败：" ++ "execCommand返回失败") s, false)
    | .error message => (log env ("方法2失败：" ++ message) s, false)
  else st

/-- Method 3 of `copyLog` (`navigator.clipboard.write`), guarded by `!success` and by
the presence of the API. -/
def copyMethod3 (env : Env) (logContent : String) (st : Page × Bool) : Page × Bool :=
  if !st.2 && env.hasWrite then
    let s := call (.write logContent (env.write logContent)) st.1
    match env.write logContent with
    | .ok _ => (log env "方法3：ClipboardItem API复制成功" s, true)
    | .error message => (log env ("方法3失败：" ++ message) s, false)
  else st

/-- The final `if (success)` block of `copyLog`. -/
def copySucceeded (env : Env) (s : Page) : Page :=
  let s := alert "✅ 复制成功！" s
  log env "用户收到成功提示" s

/-- The function `copyLog()`. The only statement that can throw outside the three inner
`try` blocks is the read of `debugLog.contentEditable` when `debugLog` is `null`; it is
caught by the outer `catch`. -/
def copyLog (env : Env) (s : Page) : Page :=
  let s := log env "用户点击了复制日志按钮" s
  let logContent := joinLines s.logEntries
  let st := copyMethod3 env logContent (copyMethod2 env logContent (copyMethod1 env logContent s))
  let s := st.1
  if !st.2 then
    let s := log env "所有自动方法失败，启用回退方案" s
    match s.debugLog with
    | none =>
      let s := log env ("全局捕获异常：" ++ env.nullReadMessage) s
      alert "❌ 复制过程中发生意外错误" s
    | some panel =>
      let s := { s with debugLog := some { panel with contentEditable := "true" } }
      let s := call .selectLog s
      let s := alert "⚠️ 请手动按 Ctrl+C 复制选中内容" s
      let s := call (.setTimeout 100) s
      copySucceeded env s
  else
    copySucceeded env s

/-! ## The operations of the page -/

/-- The handlers a user (or the script itself) can run on the page. -/
inductive Op where
  | log (message : String)
  | showTab (tabId : String)
  | openDebugModal
  | closeDebugModal
  | generateQRCode (retryCount maxRetries : Nat)
  | downloadQRCode
  | parseQRCode
  | downloadLog
  | copyLog

/-- Runs one operation. -/
def Op.run (env : Env) : Op → Page → Page
  | .log message => QRPage.log env message
  | .showTab tabId => QRPage.showTab env tabId
  | .openDebugModal => QRPage.openDebugModal env
  | .closeDebugModal => QRPage.closeDebugModal env
  | .generateQRCode retryCount maxRetries => QRPage.generateQRCode env retryCount maxRetries
  | .downloadQRCode => QRPage.downloadQRCode env
  | .parseQRCode => QRPage.parseQRCode env
  | .downloadLog => QRPage.downloadLog env
  | .copyLog => QRPage.copyLog env

/-- The calls a handler added to the trace of `before`. -/
def newCalls (before after : Page) : List Call :=
  after.calls.drop before.calls.length

/-- The entries a handler added to the log of `before`. -/
def newEntries (before after : Page) : List String :=
  after.logEntries.drop before.logEntries.length

/-! ## Vocabulary of the statements -/

/-- The text the flow works on: the input value after `trim()`. -/
def Page.text (s : Page) : String :=
  jsTrim s.textInput

/-- Whether a call is a call to the encoder. -/
def Call.isEncode : Call → Bool
  | .qrcode _ _ => true
  | _ => false

/-- The number of encode attempts in a list of calls. -/
def encodeCount (cs : List Call) : Nat :=
  cs.countP Call.isEncode

/-- Whether the verification of attempt `k` on `text` mismatches: the image is produced
and loads, nothing throws, and the decoder returns `null` or some other data. -/
def mismatches (env : Env) (text : String) (k : Nat) : Bool :=
  match env.qrcode k text with
  | .error _ => false
  | .ok src =>
    env.imgOnload k src &&
      match env.jsQR k src with
      | .error _ => false
      | .ok code => decide (code ≠ some text)

/-- Whether attempt `k` on `text` throws: in the encoder, while the image loads, or in
the decoder. -/
def throws (env : Env) (text : String) (k : Nat) : Bool :=
  match env.qrcode k text with
  | .error _ => true
  | .ok src =>
    !env.imgOnload k src ||
      match env.jsQR k src with
      | .error _ => true
      | .ok _ => false

/-- What a run of `generateQRCode env r m` from `s` satisfies, with `new` the calls it
adds: it adds at least one call; the download control ends visible exactly when some
decoder call of the run returned the text; and every decoder call of the run reads an
image that an encoder call of the run produced from the text. -/
def RunInvariant (env : Env) (m r : Nat) (s : Page) : Prop :=
  ∃ new, (generateQRCode env r m s).calls = s.calls ++ new ∧ new ≠ [] ∧
    ((generateQRCode env r m s).downloadBtnHidden = false ↔
      ∃ src, Call.jsQR src (.ok (some s.text)) ∈ new) ∧
    (∀ src res, Call.jsQR src res ∈ new → Call.qrcode s.text (.ok src) ∈ new)

/-- The four clipboard mechanisms of `copyLog`, in the order of the script. -/
inductive Mechanism where
  | directWrite
  | legacyCommand
  | dataWrite
  | manualFallback
  deriving DecidableEq, Repr

/-- The mechanism a call is an attempt of, if any. -/
def Call.mechanism : Call → Option Mechanism
  | .writeText _ _ => some .directWrite
  | .execCommand _ _ => some .legacyCommand
  | .write _ _ => some .dataWrite
  | .selectLog => some .manualFallback
  | _ => none

/-- The mechanisms attempted in a list of calls, in the order of the attempts. -/
def attempted (cs : List Call) : List Mechanism :=
  cs.filterMap Call.mechanism

/-- Whether a call is a clipboard mechanism that succeeded: a resolved `writeText` or
`write`, or an `execCommand` that returned `true`. -/
def Call.succeeded : Call → Bool
  | .writeText _ (.ok _) => true
  | .execCommand _ (.ok true) => true
  | .write _ (.ok _) => true
  | _ => false

/-- The message `copyLog` logs for a failed method 2: the thrown message, or the
message of the error the script raises itself on a `false` result. -/
def execFailureMessage : Except String Bool → String
  | .error message => message
  | .ok _ => "execCommand返回失败"

/-- The timestamp of the `i`-th entry logged after state `s`. -/
def stamp (env : Env) (s : Page) (i : Nat) : String :=
  replaceSlashes (env.toLocaleString (s.logEntries.length + i))

/-- The value of `logContent` in `copyLog` called on `s`: the joined log, the entry for
the click included. -/
def logContent (env : Env) (s : Page) : String :=
  joinLines (s.logEntries ++ [logEntry (stamp env s 0) "用户点击了复制日志按钮"])

/-! ## Sample collaborators and pages -/

/-- Collaborators that all work: the decoder reads back `hi`; clipboard methods 1 and 2
fail and method 3 succeeds. -/
def sampleEnv : Env where
  toLocaleString := fun _ => "2024/05/01 12:00:00"
  qrcode := fun _ text => .ok ("data:image/gif;base64," ++ text)
  imgOnload := fun _ _ => true
  jsQR := fun _ _ => .ok (some "hi")
  readAsDataURL := fun file => some ("data:image/png;base64," ++ file)
  uploadOnload := fun _ => true
  getContext := true
  jsQRUpload := fun _ => .ok (some "hi")
  hasWriteText := true
  writeText := fun _ => .error "NotAllowedError"
  execCommand := fun _ => .ok false
  hasWrite := true
  write := fun _ => .ok ()
  nullReadMessage := "Cannot read properties of null"

/-- The collaborators of `sampleEnv` with a decoder that never finds a symbol. -/
def blindEnv : Env :=
  { sampleEnv with jsQR := fun _ _ => .ok none }

/-- The collaborators of `sampleEnv` with an encoder that rejects its input. -/
def overflowEnv : Env :=
  { sampleEnv with qrcode := fun _ _ => .error "code length overflow" }

/-- The page after load: generate tab shown, nothing generated, no file chosen, and the
text `hi` typed with a space on each side. -/
def samplePage : Page where
  logEntries := []
  debugLog := some ⟨"", "inherit", false⟩
  generateTabHidden := false
  parseTabHidden := true
  debugModalHidden := true
  downloadBtnHidden := true
  qrcodeContainer := []
  parsedText := ""
  textInput := " hi "
  fileInput := none
  calls := []

/-! ## Frame lemmas: what `log`, `call` and `alert` touch -/

@[simp] theorem log_logEntries (env : Env) (msg : String) (s : Page) :
    (log env msg s).logEntries = s.logEntries ++ [logEntry (timestamp env s) msg] := rfl

@[simp] theorem log_calls (env : Env) (msg : String) (s : Page) :
    (log env msg s).calls = s.calls := rfl

@[simp] theorem log_debugLog (env : Env) (msg : String) (s : Page) :
    (log env msg s).debugLog = s.debugLog.map fun p =>
      { p with text := p.text ++ (logEntry (timestamp env s) msg ++ "\n"),
               scrolledToBottom := true } := rfl

@[simp] theorem log_textInput (env : Env) (msg : String) (s : Page) :
    (log env msg s).textInput = s.textInput := rfl

@[simp] theorem log_fileInput (env : Env) (msg : String) (s : Page) :
    (log env msg s).fileInput = s.fileInput := rfl

@[simp] theorem log_downloadBtnHidden (env : Env) (msg : String) (s : Page) :
    (log env msg s).downloadBtnHidden = s.downloadBtnHidden := rfl

@[simp] theorem log_generateTabHidden (env : Env) (msg : String) (s : Page) :
    (log env msg s).generateTabHidden = s.generateTabHidden := rfl

@[simp] theorem log_parseTabHidden (env : Env) (msg : String) (s : Page) :
    (log env msg s).parseTabHidden = s.parseTabHidden := rfl

@[simp] theorem log_debugModalHidden (env : Env) (msg : String) (s : Page) :
    (log env msg s).debugModalHidden = s.debugModalHidden := rfl

@[simp] theorem log_qrcodeContainer (env : Env) (msg : String) (s : Page) :
    (log env msg s).qrcodeContainer = s.qrcodeContainer := rfl

@[simp] theorem log_parsedText (env : Env) (msg : String) (s : Page) :
    (log env msg s).parsedText = s.parsedText := rfl

@[simp] theorem call_calls (c : Call) (s : Page) : (call c s).calls = s.calls ++ [c] := rfl

@[simp] theorem call_logEntries (c : Call) (s : Page) :
    (call c s).logEntries = s.logEntries := rfl

@[simp] theorem call_debugLog (c : Call) (s : Page) : (call c s).debugLog = s.debugLog := rfl

@[simp] theorem call_textInput (c : Call) (s : Page) : (call c s).textInput = s.textInput := rfl

@[simp] theorem call_downloadBtnHidden (c : Call) (s : Page) :
    (call c s).downloadBtnHidden = s.downloadBtnHidden := rfl

@[simp] theorem call_qrcodeContainer (c : Call) (s : Page) :
    (call c s).qrcodeContainer = s.qrcodeContainer := rfl

@[simp] theorem call_parsedText (c : Call) (s : Page) : (call c s).parsedText = s.parsedText := rfl

@[simp] theorem alert_calls (msg : String) (s : Page) :
    (alert msg s).calls = s.calls ++ [.alert msg] := rfl

@[simp] theorem alert_logEntries (msg : String) (s : Page) :
    (alert msg s).logEntries = s.logEntries := rfl

@[simp] theorem alert_downloadBtnHidden (msg : String) (s : Page) :
    (alert msg s).downloadBtnHidden = s.downloadBtnHidden := rfl

@[simp] theorem alert_qrcodeContainer (msg : String) (s : Page) :
    (alert msg s).qrcodeContainer = s.qrcodeContainer := rfl

@[simp] theorem alert_parsedText (msg : String) (s : Page) :
    (alert msg s).parsedText = s.parsedText := rfl

@[simp] theorem generateCatch_calls (env : Env) (msg : String) (s : Page) :
    (generateCatch env msg s).calls = s.calls := rfl

@[simp] theorem generateCatch_logEntries (env : Env) (msg : String) (s : Page) :
    (generateCatch env msg s).logEntries =
      s.logEntries ++ [logEntry (timestamp env s) ("生成失败：" ++ msg)] := rfl

@[simp] theorem generateCatch_downloadBtnHidden (env : Env) (msg : String) (s : Page) :
    (generateCatch env msg s).downloadBtnHidden = s.downloadBtnHidden := rfl

@[simp] theorem generateCatch_qrcodeContainer (env : Env) (msg : String) (s : Page) :
    (generateCatch env msg s).qrcodeContainer =
      [.html "<p style=\"color:red;\">生成二维码时出错</p>"] := rfl

/-- A list is an initial segment of itself extended twice. -/
theorem initial_append_append {α : Type} (l a b : List α) : l <+: l ++ a ++ b := by
  exact ⟨a ++ b, (List.append_assoc l a b).symm⟩

/-! ## One attempt of the generation flow, outcome by outcome -/

/-- Empty text (after trimming): the flow stops at the prompt, nothing else changes. -/
theorem generateQRCode_empty (env : Env) (r m : Nat) (s : Page)
    (h : jsTrim s.textInput = "") :
    (generateQRCode env r m s).calls = s.calls ++ [.alert "请输入文本"] ∧
    (generateQRCode env r m s).downloadBtnHidden = s.downloadBtnHidden ∧
    (generateQRCode env r m s).qrcodeContainer = s.qrcodeContainer ∧
    s.logEntries <+: (generateQRCode env r m s).logEntries := by
  rw [generateQRCode]
  simp [h, initial_append_append]

/-- The encoder throws: the `catch` block runs. -/
theorem generateQRCode_encodeThrows (env : Env) (r m : Nat) (s : Page) (msg : String)
    (h : jsTrim s.textInput ≠ "") (he : env.qrcode r (jsTrim s.textInput) = .error msg) :
    (generateQRCode env r m s).calls =
      s.calls ++ [.qrcode (jsTrim s.textInput) (.error msg)] ∧
    (generateQRCode env r m s).downloadBtnHidden = true ∧
    (generateQRCode env r m s).qrcodeContainer =
      [.html "<p style=\"color:red;\">生成二维码时出错</p>"] ∧
    s.logEntries <+: (generateQRCode env r m s).logEntries := by
  rw [generateQRCode]
  simp [h, he, initial_append_append]

/-- The generated image fails to load: the `catch` block runs. -/
theorem generateQRCode_loadFails (env : Env) (r m : Nat) (s : Page) (src : String)
    (h : jsTrim s.textInput ≠ "") (he : env.qrcode r (jsTrim s.textInput) = .ok src)
    (hl : env.imgOnload r src = false) :
    (generateQRCode env r m s).calls =
      s.calls ++ [.qrcode (jsTrim s.textInput) (.ok src), .imgLoad src false] ∧
    (generateQRCode env r m s).downloadBtnHidden = true ∧
    (generateQRCode env r m s).qrcodeContainer =
      [.html "<p style=\"color:red;\">生成二维码时出错</p>"] ∧
    s.logEntries <+: (generateQRCode env r m s).logEntries := by
  rw [generateQRCode]
  simp [h, he, hl, initial_append_append]

/-- The decoder (or the canvas read-back) throws: the `catch` block runs. -/
theorem generateQRCode_decodeThrows (env : Env) (r m : Nat) (s : Page) (src msg : String)
    (h : jsTrim s.textInput ≠ "") (he : env.qrcode r (jsTrim s.textInput) = .ok src)
    (hl : env.imgOnload r src = true) (hd : env.jsQR r src = .error msg) :
    (generateQRCode env r m s).calls =
      s.calls ++ [.qrcode (jsTrim s.textInput) (.ok src), .imgLoad src true,
        .jsQR src (.error msg)] ∧
    (generateQRCode env r m s).downloadBtnHidden = true ∧
    (generateQRCode env r m s).qrcodeContainer =
      [.html "<p style=\"color:red;\">生成二维码时出错</p>"] ∧
    s.logEntries <+: (generateQRCode env r m s).logEntries := by
  rw [generateQRCode]
  simp [h, he, hl, hd, initial_append_append]

/-- The decoder returns the encoded text: the download control is revealed. -/
theorem generateQRCode_match (env : Env) (r m : Nat) (s : Page) (src : String)
    (h : jsTrim s.textInput ≠ "") (he : env.qrcode r (jsTrim s.textInput) = .ok src)
    (hl : env.imgOnload r src = true)
    (hd : env.jsQR r src = .ok (some (jsTrim s.textInput))) :
    (generateQRCode env r m s).calls =
      s.calls ++ [.qrcode (jsTrim s.textInput) (.ok src), .imgLoad src true,
        .jsQR src (.ok (some (jsTrim s.textInput)))] ∧
    (generateQRCode env r m s).downloadBtnHidden = false ∧
    (generateQRCode env r m s).qrcodeContainer = [.img src "生成的二维码"] ∧
    s.logEntries <+: (generateQRCode env r m s).logEntries := by
  rw [generateQRCode]
  simp [h, he, hl, hd, initial_append_append]

/-- A mismatch with the budget used up: the verification-failure message is shown. -/
theorem generateQRCode_mismatch_last (env : Env) (r m : Nat) (s : Page) (src : String)
    (code : Option String)
    (h : jsTrim s.textInput ≠ "") (he : env.qrcode r (jsTrim s.textInput) = .ok src)
    (hl : env.imgOnload r src = true) (hd : env.jsQR r src = .ok code)
    (hc : code ≠ some (jsTrim s.textInput)) (hr : ¬ r < m) :
    (generateQRCode env r m s).calls =
      s.calls ++ [.qrcode (jsTrim s.textInput) (.ok src), .imgLoad src true,
        .jsQR src (.ok code)] ∧
    (generateQRCode env r m s).downloadBtnHidden = true ∧
    (generateQRCode env r m s).qrcodeContainer =
      [.html "<p style=\"color:red;\">二维码生成验证失败，请重试</p>"] ∧
    s.logEntries <+: (generateQRCode env r m s).logEntries := by
  rw [generateQRCode]
  simp [h, he, hl, hd, hc, hr, initial_append_append]

/-- A mismatch with budget left: the flow is run again with `r + 1`, from a state with
the same input text, the download control hidden, three more calls in the trace and a
longer log. -/
theorem generateQRCode_mismatch_retry (env : Env) (r m : Nat) (s : Page) (src : String)
    (code : Option String)
    (h : jsTrim s.textInput ≠ "") (he : env.qrcode r (jsTrim s.textInput) = .ok src)
    (hl : env.imgOnload r src = true) (hd : env.jsQR r src = .ok code)
    (hc : code ≠ some (jsTrim s.textInput)) (hr : r < m) :
    ∃ s1 : Page, generateQRCode env r m s = generateQRCode env (r + 1) m s1 ∧
      s1.calls = s.calls ++ [.qrcode (jsTrim s.textInput) (.ok src), .imgLoad src true,
        .jsQR src (.ok code)] ∧
      s1.textInput = s.textInput ∧ s1.downloadBtnHidden = true ∧
      s.logEntries <+: s1.logEntries := by
  rw [generateQRCode]
  simp only [log_textInput, h, he, hl, hd, hc, hr, if_true, if_false]
  exact ⟨_, rfl, by simp, by simp, by simp, by simp [initial_append_append]⟩

/-! ## Tab controller -/

/-- C8: for every prior state and every tab id, `showTab` leaves exactly one of the two
views visible (the generate view for `generate`, the parse view for `parse`), a second
`showTab` with the same id changes no visibility, and each of the two calls appends one
log entry. -/
theorem showTab_exclusive_idempotent (env : Env) (tabId : String) (s : Page) :
    ((showTab env tabId s).generateTabHidden = !(showTab env tabId s).parseTabHidden) ∧
    ((showTab env "generate" s).generateTabHidden = false ∧
      (showTab env "generate" s).parseTabHidden = true) ∧
    ((showTab env "parse" s).parseTabHidden = false ∧
      (showTab env "parse" s).generateTabHidden = true) ∧
    ((showTab env tabId (showTab env tabId s)).generateTabHidden =
        (showTab env tabId s).generateTabHidden ∧
      (showTab env tabId (showTab env tabId s)).parseTabHidden =
        (showTab env tabId s).parseTabHidden ∧
      (showTab env tabId (showTab env tabId s)).debugModalHidden =
        (showTab env tabId s).debugModalHidden ∧
      (showTab env tabId (showTab env tabId s)).downloadBtnHidden =
        (showTab env tabId s).downloadBtnHidden) ∧
    (showTab env tabId s).logEntries =
      s.logEntries ++ [logEntry (stamp env s 0) ("用户切换了板块：" ++ tabId)] ∧
    (showTab env tabId (showTab env tabId s)).logEntries =
      s.logEntries ++ [logEntry (stamp env s 0) ("用户切换了板块：" ++ tabId),
        logEntry (stamp env s 1) ("用户切换了板块：" ++ tabId)] := by
  have hne : ("parse" : String) ≠ "generate" := by decide
  by_cases h : tabId = "generate" <;>
    simp [showTab, h, hne, stamp, timestamp]

/-! ## Parse flow -/

/-- C9: with no file selected, `parseQRCode` leaves the parsed-text output empty, raises
one alert and makes no other call (so neither the file reader nor the decoder runs),
and appends its two opening entries followed by the failure entry. -/
theorem parseQRCode_no_file (env : Env) (s : Page) (h : s.fileInput = none) :
    (parseQRCode env s).parsedText = "" ∧
    newCalls s (parseQRCode env s) = [.alert "请选择图片文件"] ∧
    newEntries s (parseQRCode env s) =
      [logEntry (stamp env s 0) "用户点击了解析二维码按钮",
       logEntry (stamp env s 1) "开始解析二维码...",
       logEntry (stamp env s 2) "上传文件，失败：未选择文件"] := by
  simp [parseQRCode, h, newCalls, newEntries, stamp, timestamp]

/-- Witness of C9 on the sample page, where no file is chosen. -/
theorem parseQRCode_no_file_witness :
    samplePage.fileInput = none ∧
    (parseQRCode sampleEnv samplePage).parsedText = "" ∧
    newCalls samplePage (parseQRCode sampleEnv samplePage) = [.alert "请选择图片文件"] ∧
    newEntries samplePage (parseQRCode sampleEnv samplePage) =
      [logEntry (stamp sampleEnv samplePage 0) "用户点击了解析二维码按钮",
       logEntry (stamp sampleEnv samplePage 1) "开始解析二维码...",
       logEntry (stamp sampleEnv samplePage 2) "上传文件，失败：未选择文件"] :=
  ⟨rfl, parseQRCode_no_file sampleEnv samplePage rfl⟩

/-! ## Log export -/

/-- C7: the file `downloadLog` produces is named `debug-log.log` and its content is the
newline-join, in recorded order, of the log at the moment of the export: the entries
recorded before the call followed by the entry `downloadLog` records for the click. The
confirmation entry is logged after the file is produced. -/
theorem downloadLog_exports_joined_entries (env : Env) (s : Page) :
    newCalls s (downloadLog env s) =
      [.anchorClick
        (.blob (String.intercalate "\n"
          (s.logEntries ++ [logEntry (stamp env s 0) "用户点击了下载日志文件按钮"])) "text/plain")
        "debug-log.log"] ∧
    (downloadLog env s).logEntries =
      (s.logEntries ++ [logEntry (stamp env s 0) "用户点击了下载日志文件按钮"]) ++
        [logEntry (stamp env s 1) "日志文件下载成功，文件名：debug-log.log"] := by
  simp [downloadLog, newCalls, joinLines, stamp, timestamp]

/-! ## Generation flow -/

/-- The calls a handler added, read off an explicit decomposition of the trace. -/
theorem newCalls_of_append (s t : Page) (new : List Call) (h : t.calls = s.calls ++ new) :
    newCalls s t = new := by
  simp [newCalls, h]

/-- One attempt preserves the run invariant, given the invariant for the retry. -/
theorem runInvariant_step (env : Env) (m r : Nat) (s : Page)
    (hs : s.downloadBtnHidden = true)
    (ih : r < m → ∀ s1 : Page, s1.downloadBtnHidden = true → RunInvariant env m (r + 1) s1) :
    RunInvariant env m r s := by
  unfold RunInvariant
  by_cases ht : jsTrim s.textInput = ""
  · obtain ⟨h1, h2, -, -⟩ := generateQRCode_empty env r m s ht
    exact ⟨_, h1, by simp, by simp [h2, hs], by simp⟩
  · rcases he : env.qrcode r (jsTrim s.textInput) with msg | src
    · obtain ⟨h1, h2, -, -⟩ := generateQRCode_encodeThrows env r m s msg ht he
      exact ⟨_, h1, by simp, by simp [h2], by simp⟩
    · cases hl : env.imgOnload r src
      · obtain ⟨h1, h2, -, -⟩ := generateQRCode_loadFails env r m s src ht he hl
        exact ⟨_, h1, by simp, by simp [h2], by simp⟩
      · rcases hd : env.jsQR r src with msg | code
        · obtain ⟨h1, h2, -, -⟩ := generateQRCode_decodeThrows env r m s src msg ht he hl hd
          exact ⟨_, h1, by simp, by simp [h2], by simp [Page.text]⟩
        · by_cases hc : code = some (jsTrim s.textInput)
          · subst hc
            obtain ⟨h1, h2, -, -⟩ := generateQRCode_match env r m s src ht he hl hd
            exact ⟨_, h1, by simp, by simp [h2, Page.text], by simp [Page.text]⟩
          · by_cases hr : r < m
            · obtain ⟨s1, hrec, hcalls, htext, hhid, -⟩ :=
                generateQRCode_mismatch_retry env r m s src code ht he hl hd hc hr
              obtain ⟨new1, hn1, -, hiff, hsrc⟩ := ih hr s1 hhid
              have htx : s1.text = s.text := by simp [Page.text, htext]
              rw [htx] at hiff hsrc
              refine ⟨[.qrcode (jsTrim s.textInput) (.ok src), .imgLoad src true,
                .jsQR src (.ok code)] ++ new1, ?_, by simp, ?_, ?_⟩
              · rw [hrec, hn1, hcalls, List.append_assoc]
              · rw [hrec, hiff]
                constructor
                · rintro ⟨x, hx⟩
                  exact ⟨x, List.mem_append_right _ hx⟩
                · rintro ⟨x, hx⟩
                  rcases List.mem_append.mp hx with hx | hx
                  · have hcode : src = x ∧ code = some (jsTrim s.textInput) := by
                      simpa [eq_comm, Page.text] using hx
                    exact absurd hcode.2 hc
                  · exact ⟨x, hx⟩
              · intro x res hx
                rcases List.mem_append.mp hx with hx | hx
                · have hxs : x = src := by
                    have := hx
                    simp at this
                    exact this.1
                  subst hxs
                  exact List.mem_append_left _ (by simp [Page.text])
                · exact List.mem_append_right _ (hsrc x res hx)
            · obtain ⟨h1, h2, -, -⟩ :=
                generateQRCode_mismatch_last env r m s src code ht he hl hd hc hr
              refine ⟨_, h1, by simp, ?_, by simp [Page.text]⟩
              simp only [h2, Page.text]
              simp
              exact fun h => hc h.symm

/-- Every run of `generateQRCode` that starts with the download control hidden
satisfies the run invariant. -/
theorem generateQRCode_run (env : Env) (m : Nat) :
    ∀ (n r : Nat) (s : Page), m - r = n → s.downloadBtnHidden = true →
      RunInvariant env m r s := by
  intro n
  induction n with
  | zero =>
    intro r s hn hs
    exact runInvariant_step env m r s hs (fun hr => absurd hr (by omega))
  | succ n ih =>
    intro r s hn hs
    exact runInvariant_step env m r s hs (fun _ s1 h1 => ih (r + 1) s1 (by omega) h1)

/-- C1: in a run of `generateQRCode` that starts with the download control hidden, the
control is visible at the end exactly when, in some attempt of the run, the encoder
produced an image from the text and the decoder, given that image, returned a result
whose data equals the text; in every other run the control is hidden at the end. The
text is the input value as the flow reads it (after `trim()`); the statement holds for
every input, every collaborator behaviour and every retry budget. -/
theorem generateQRCode_reveals_only_verified (env : Env) (retryCount maxRetries : Nat)
    (s : Page) (h : s.downloadBtnHidden = true) :
    ((generateQRCode env retryCount maxRetries s).downloadBtnHidden = false ↔
      ∃ src, Call.qrcode s.text (.ok src) ∈
          newCalls s (generateQRCode env retryCount maxRetries s) ∧
        Call.jsQR src (.ok (some s.text)) ∈
          newCalls s (generateQRCode env retryCount maxRetries s)) ∧
    ((¬ ∃ src, Call.jsQR src (.ok (some s.text)) ∈
          newCalls s (generateQRCode env retryCount maxRetries s)) →
      (generateQRCode env retryCount maxRetries s).downloadBtnHidden = true) := by
  obtain ⟨new, hnew, -, hiff, hsrc⟩ :=
    generateQRCode_run env maxRetries _ retryCount s rfl h
  rw [newCalls_of_append s _ new hnew]
  refine ⟨?_, ?_⟩
  · rw [hiff]
    constructor
    · rintro ⟨src, hx⟩
      exact ⟨src, hsrc src _ hx, hx⟩
    · rintro ⟨src, -, hx⟩
      exact ⟨src, hx⟩
  · intro hno
    cases hb : (generateQRCode env retryCount maxRetries s).downloadBtnHidden
    · exact absurd (hiff.mp hb) hno
    · rfl

/-- Witness of C1: the sample page with the working sample collaborators. -/
theorem generateQRCode_reveals_only_verified_witness :
    samplePage.downloadBtnHidden = true ∧
    (((generateQRCode sampleEnv 0 3 samplePage).downloadBtnHidden = false ↔
      ∃ src, Call.qrcode samplePage.text (.ok src) ∈
          newCalls samplePage (generateQRCode sampleEnv 0 3 samplePage) ∧
        Call.jsQR src (.ok (some samplePage.text)) ∈
          newCalls samplePage (generateQRCode sampleEnv 0 3 samplePage)) ∧
    ((¬ ∃ src, Call.jsQR src (.ok (some samplePage.text)) ∈
          newCalls samplePage (generateQRCode sampleEnv 0 3 samplePage)) →
      (generateQRCode sampleEnv 0 3 samplePage).downloadBtnHidden = true)) :=
  ⟨rfl, generateQRCode_reveals_only_verified sampleEnv 0 3 samplePage rfl⟩

/-- What a mismatching attempt consists of. -/
theorem mismatches_elim (env : Env) (text : String) (k : Nat)
    (h : mismatches env text k = true) :
    ∃ src code, env.qrcode k text = .ok src ∧ env.imgOnload k src = true ∧
      env.jsQR k src = .ok code ∧ code ≠ some text := by
  unfold mismatches at h
  rcases he : env.qrcode k text with msg | src
  · simp [he] at h
  · rcases hd : env.jsQR k src with msg | code
    · simp [he, hd] at h
    · simp only [he, hd, Bool.and_eq_true, decide_eq_true_eq] at h
      exact ⟨src, code, rfl, h.1, hd, h.2⟩

/-- Where a throwing attempt throws. -/
theorem throws_elim (env : Env) (text : String) (k : Nat) (h : throws env text k = true) :
    (∃ msg, env.qrcode k text = .error msg) ∨
    (∃ src, env.qrcode k text = .ok src ∧ env.imgOnload k src = false) ∨
    (∃ src msg, env.qrcode k text = .ok src ∧ env.imgOnload k src = true ∧
      env.jsQR k src = .error msg) := by
  unfold throws at h
  rcases he : env.qrcode k text with msg | src
  · exact Or.inl ⟨msg, rfl⟩
  · cases hl : env.imgOnload k src
    · exact Or.inr (Or.inl ⟨src, rfl, hl⟩)
    · rcases hd : env.jsQR k src with msg | code
      · exact Or.inr (Or.inr ⟨src, msg, rfl, hl, hd⟩)
      · simp [he, hl, hd] at h

/-- A run in which every remaining attempt mismatches makes one encode attempt per
attempt number from `r` to `m` and ends in the verification-failure state. -/
theorem generateQRCode_mismatch_run (env : Env) (m : Nat) :
    ∀ (n r : Nat) (s : Page), m - r = n → r ≤ m → jsTrim s.textInput ≠ "" →
      (∀ k, r ≤ k → k ≤ m → mismatches env (jsTrim s.textInput) k = true) →
      ∃ new, (generateQRCode env r m s).calls = s.calls ++ new ∧
        encodeCount new = m + 1 - r ∧
        (generateQRCode env r m s).qrcodeContainer =
          [.html "<p style=\"color:red;\">二维码生成验证失败，请重试</p>"] ∧
        (generateQRCode env r m s).downloadBtnHidden = true := by
  intro n
  induction n with
  | zero =>
    intro r s hn hrm ht hall
    obtain ⟨src, code, he, hl, hd, hc⟩ := mismatches_elim env _ r (hall r (le_refl r) hrm)
    obtain ⟨h1, h2, h3, -⟩ :=
      generateQRCode_mismatch_last env r m s src code ht he hl hd hc (by omega)
    refine ⟨_, h1, ?_, h3, h2⟩
    have : m + 1 - r = 1 := by omega
    simp [encodeCount, Call.isEncode, this]
  | succ n ih =>
    intro r s hn hrm ht hall
    obtain ⟨src, code, he, hl, hd, hc⟩ := mismatches_elim env _ r (hall r (le_refl r) hrm)
    obtain ⟨s1, hrec, hcalls, htext, -, -⟩ :=
      generateQRCode_mismatch_retry env r m s src code ht he hl hd hc (by omega)
    obtain ⟨new1, hn1, hcount, hcont, hhid⟩ :=
      ih (r + 1) s1 (by omega) (by omega) (by rw [htext]; exact ht)
        (fun k hk hkm => by rw [htext]; exact hall k (by omega) hkm)
    refine ⟨[.qrcode (jsTrim s.textInput) (.ok src), .imgLoad src true,
      .jsQR src (.ok code)] ++ new1, ?_, ?_, ?_, ?_⟩
    · rw [hrec, hn1, hcalls, List.append_assoc]
    · have : m + 1 - r = 1 + (m + 1 - (r + 1)) := by omega
      rw [this, ← hcount]
      simp [encodeCount, Call.isEncode, List.countP_cons, Nat.add_comm]
    · rw [hrec, hcont]
    · rw [hrec, hhid]

/-- C2: for every budget `N` and every input whose text is not empty, when the flow is
started with attempt 0 and every verification mismatches (the images load and nothing
throws), the flow ends, having made exactly `N + 1` encode attempts (so at most
`N + 1`), with the verification-failure message as the only content of the artifact
container and the download control hidden. -/
theorem generateQRCode_bounded_retries (env : Env) (N : Nat) (s : Page)
    (ht : s.text ≠ "") (hall : ∀ k, k ≤ N → mismatches env s.text k = true) :
    encodeCount (newCalls s (generateQRCode env 0 N s)) ≤ N + 1 ∧
    encodeCount (newCalls s (generateQRCode env 0 N s)) = N + 1 ∧
    (generateQRCode env 0 N s).qrcodeContainer =
      [.html "<p style=\"color:red;\">二维码生成验证失败，请重试</p>"] ∧
    (generateQRCode env 0 N s).downloadBtnHidden = true := by
  obtain ⟨new, hnew, hcount, hcont, hhid⟩ :=
    generateQRCode_mismatch_run env N _ 0 s rfl (Nat.zero_le N) ht
      (fun k _ hk => hall k hk)
  rw [newCalls_of_append s _ new hnew]
  exact ⟨by omega, by omega, hcont, hhid⟩

/-- Witness of C2: budget 3 and a decoder that never finds a symbol. -/
theorem generateQRCode_bounded_retries_witness :
    samplePage.text ≠ "" ∧ (∀ k, k ≤ 3 → mismatches blindEnv samplePage.text k = true) ∧
    encodeCount (newCalls samplePage (generateQRCode blindEnv 0 3 samplePage)) ≤ 3 + 1 ∧
    encodeCount (newCalls samplePage (generateQRCode blindEnv 0 3 samplePage)) = 3 + 1 ∧
    (generateQRCode blindEnv 0 3 samplePage).qrcodeContainer =
      [.html "<p style=\"color:red;\">二维码生成验证失败，请重试</p>"] ∧
    (generateQRCode blindEnv 0 3 samplePage).downloadBtnHidden = true :=
  ⟨by decide, fun _ _ => rfl,
    generateQRCode_bounded_retries blindEnv 3 samplePage (by decide) (fun _ _ => rfl)⟩

/-- C3: at every attempt number and with every budget, when the encoder, the image
load or the decoder throws, the flow ends in that attempt: the artifact container holds
the inline error message, the download control is hidden, and the run made exactly one
encode attempt (the throwing one), so no retry took place. -/
theorem generateQRCode_exception_is_final (env : Env) (retryCount maxRetries : Nat)
    (s : Page) (ht : s.text ≠ "") (hthrow : throws env s.text retryCount = true) :
    (generateQRCode env retryCount maxRetries s).qrcodeContainer =
      [.html "<p style=\"color:red;\">生成二维码时出错</p>"] ∧
    (generateQRCode env retryCount maxRetries s).downloadBtnHidden = true ∧
    encodeCount (newCalls s (generateQRCode env retryCount maxRetries s)) = 1 ∧
    (newCalls s (generateQRCode env retryCount maxRetries s)).length ≤ 3 := by
  rcases throws_elim env _ _ hthrow with ⟨msg, he⟩ | ⟨src, he, hl⟩ | ⟨src, msg, he, hl, hd⟩
  · obtain ⟨h1, h2, h3, -⟩ := generateQRCode_encodeThrows env retryCount maxRetries s msg ht he
    rw [newCalls_of_append s _ _ h1]
    exact ⟨h3, h2, by simp [encodeCount, Call.isEncode], by simp⟩
  · obtain ⟨h1, h2, h3, -⟩ := generateQRCode_loadFails env retryCount maxRetries s src ht he hl
    rw [newCalls_of_append s _ _ h1]
    exact ⟨h3, h2, by simp [encodeCount, Call.isEncode], by simp⟩
  · obtain ⟨h1, h2, h3, -⟩ :=
      generateQRCode_decodeThrows env retryCount maxRetries s src msg ht he hl hd
    rw [newCalls_of_append s _ _ h1]
    exact ⟨h3, h2, by simp [encodeCount, Call.isEncode], by simp⟩

/-- Witness of C3: attempt 0 of 3 with an encoder that rejects its input. -/
theorem generateQRCode_exception_is_final_witness :
    samplePage.text ≠ "" ∧ throws overflowEnv samplePage.text 0 = true ∧
    (generateQRCode overflowEnv 0 3 samplePage).qrcodeContainer =
      [.html "<p style=\"color:red;\">生成二维码时出错</p>"] ∧
    (generateQRCode overflowEnv 0 3 samplePage).downloadBtnHidden = true ∧
    encodeCount (newCalls samplePage (generateQRCode overflowEnv 0 3 samplePage)) = 1 ∧
    (newCalls samplePage (generateQRCode overflowEnv 0 3 samplePage)).length ≤ 3 :=
  ⟨by decide, by decide,
    generateQRCode_exception_is_final overflowEnv 0 3 samplePage (by decide) (by decide)⟩

/-- C10, amended: the verification compares the decoder's data with the input text
after `trim()`, not with the input as typed. When the encoder and the image load succeed
and the decoder returns, the attempt is a match (the download control is revealed and
the flow ends with the three calls of this attempt) exactly when the decoder returned a
result whose data equals the trimmed input text. -/
theorem generateQRCode_verifies_trimmed_text (env : Env) (retryCount maxRetries : Nat)
    (s : Page) (src : String) (code : Option String)
    (ht : s.text ≠ "") (he : env.qrcode retryCount s.text = .ok src)
    (hl : env.imgOnload retryCount src = true) (hd : env.jsQR retryCount src = .ok code) :
    ((generateQRCode env retryCount maxRetries s).downloadBtnHidden = false ∧
      newCalls s (generateQRCode env retryCount maxRetries s) =
        [.qrcode s.text (.ok src), .imgLoad src true, .jsQR src (.ok code)]) ↔
    code = some (jsTrim s.textInput) := by
  by_cases hc : code = some (jsTrim s.textInput)
  · subst hc
    obtain ⟨h1, h2, -, -⟩ :=
      generateQRCode_match env retryCount maxRetries s src ht he hl hd
    rw [newCalls_of_append s _ _ h1]
    simp [h2, Page.text]
  · by_cases hr : retryCount < maxRetries
    · obtain ⟨s1, hrec, hcalls, -, hhid, -⟩ :=
        generateQRCode_mismatch_retry env retryCount maxRetries s src code ht he hl hd hc hr
      obtain ⟨new1, hn1, hne1, -, -⟩ :=
        generateQRCode_run env maxRetries _ (retryCount + 1) s1 rfl hhid
      have hnew : (generateQRCode env retryCount maxRetries s).calls =
          s.calls ++ ([.qrcode (jsTrim s.textInput) (.ok src), .imgLoad src true,
            .jsQR src (.ok code)] ++ new1) := by
        rw [hrec, hn1, hcalls, List.append_assoc]
      rw [newCalls_of_append s _ _ hnew]
      constructor
      · rintro ⟨-, hlist⟩
        have hlen := congrArg List.length hlist
        simp at hlen
        exact absurd hlen hne1
      · intro h
        exact absurd h hc
    · obtain ⟨-, h2, -, -⟩ :=
        generateQRCode_mismatch_last env retryCount maxRetries s src code ht he hl hd hc hr
      simp [h2, hc]

/-- Witness of C10 (amended): the sample page, whose input is `hi` between two spaces,
with a decoder that returns `hi`. -/
theorem generateQRCode_verifies_trimmed_text_witness :
    samplePage.text ≠ "" ∧
    sampleEnv.qrcode 0 samplePage.text = .ok "data:image/gif;base64,hi" ∧
    sampleEnv.imgOnload 0 "data:image/gif;base64,hi" = true ∧
    sampleEnv.jsQR 0 "data:image/gif;base64,hi" = .ok (some "hi") ∧
    (((generateQRCode sampleEnv 0 3 samplePage).downloadBtnHidden = false ∧
      newCalls samplePage (generateQRCode sampleEnv 0 3 samplePage) =
        [.qrcode samplePage.text (.ok "data:image/gif;base64,hi"),
         .imgLoad "data:image/gif;base64,hi" true,
         .jsQR "data:image/gif;base64,hi" (.ok (some "hi"))]) ↔
    some "hi" = some (jsTrim samplePage.textInput)) :=
  ⟨by decide, by decide, rfl, rfl,
    generateQRCode_verifies_trimmed_text sampleEnv 0 3 samplePage
      "data:image/gif;base64,hi" (some "hi") (by decide) (by decide) rfl rfl⟩

/-- C10, as stated, fails: on the input `hi` between two spaces the decoder returns
`hi`, which is not the original input, and the attempt is still treated as a match: the
download control is revealed after this single attempt. -/
theorem generateQRCode_compares_original_counterexample :
    samplePage.textInput = " hi " ∧
    newCalls samplePage (generateQRCode sampleEnv 0 3 samplePage) =
      [.qrcode "hi" (.ok "data:image/gif;base64,hi"),
       .imgLoad "data:image/gif;base64,hi" true,
       .jsQR "data:image/gif;base64,hi" (.ok (some "hi"))] ∧
    (generateQRCode sampleEnv 0 3 samplePage).downloadBtnHidden = false ∧
    ¬ ((generateQRCode sampleEnv 0 3 samplePage).downloadBtnHidden = false ↔
        ∃ src, Call.jsQR src (.ok (some samplePage.textInput)) ∈
          newCalls samplePage (generateQRCode sampleEnv 0 3 samplePage)) := by
  have hcalls : newCalls samplePage (generateQRCode sampleEnv 0 3 samplePage) =
      [.qrcode "hi" (.ok "data:image/gif;base64,hi"),
       .imgLoad "data:image/gif;base64,hi" true,
       .jsQR "data:image/gif;base64,hi" (.ok (some "hi"))] := by
    unfold generateQRCode
    decide
  have hb : (generateQRCode sampleEnv 0 3 samplePage).downloadBtnHidden = false := by
    unfold generateQRCode
    decide
  refine ⟨rfl, hcalls, hb, ?_⟩
  rw [hcalls]
  simp only [hb, true_iff, not_exists, List.mem_cons, List.mem_singleton, reduceCtorEq,
    false_or, Call.jsQR.injEq, not_and, List.not_mem_nil, or_false]
  intro src _
  decide

/-! ## The log is append-only -/

/-- One attempt of `generateQRCode` only extends the log, given that the retry does. -/
theorem generateQRCode_log_step (env : Env) (m r : Nat) (s : Page)
    (ih : r < m → ∀ s1 : Page, s1.logEntries <+: (generateQRCode env (r + 1) m s1).logEntries) :
    s.logEntries <+: (generateQRCode env r m s).logEntries := by
  by_cases ht : jsTrim s.textInput = ""
  · exact (generateQRCode_empty env r m s ht).2.2.2
  · rcases he : env.qrcode r (jsTrim s.textInput) with msg | src
    · exact (generateQRCode_encodeThrows env r m s msg ht he).2.2.2
    · cases hl : env.imgOnload r src
      · exact (generateQRCode_loadFails env r m s src ht he hl).2.2.2
      · rcases hd : env.jsQR r src with msg | code
        · exact (generateQRCode_decodeThrows env r m s src msg ht he hl hd).2.2.2
        · by_cases hc : code = some (jsTrim s.textInput)
          · subst hc
            exact (generateQRCode_match env r m s src ht he hl hd).2.2.2
          · by_cases hr : r < m
            · obtain ⟨s1, hrec, -, -, -, hpre⟩ :=
                generateQRCode_mismatch_retry env r m s src code ht he hl hd hc hr
              rw [hrec]
              exact hpre.trans (ih hr s1)
            · exact (generateQRCode_mismatch_last env r m s src code ht he hl hd hc hr).2.2.2

/-- Every run of `generateQRCode` only extends the log. -/
theorem generateQRCode_log_extends (env : Env) (m : Nat) :
    ∀ (n r : Nat) (s : Page), m - r = n →
      s.logEntries <+: (generateQRCode env r m s).logEntries := by
  intro n
  induction n with
  | zero =>
    intro r s hn
    exact generateQRCode_log_step env m r s (fun hr => absurd hr (by omega))
  | succ n ih =>
    intro r s hn
    exact generateQRCode_log_step env m r s (fun _ s1 => ih (r + 1) s1 (by omega))

/-- The function `parseQRCode` only extends the log. -/
theorem parseQRCode_log_extends (env : Env) (s : Page) :
    s.logEntries <+: (parseQRCode env s).logEntries := by
  unfold parseQRCode
  simp only []
  repeat' split
  all_goals simp [initial_append_append]

/-- Method 1 of `copyLog` only extends the log. -/
theorem copyMethod1_log_extends (env : Env) (content : String) (s : Page) :
    s.logEntries <+: (copyMethod1 env content s).1.logEntries := by
  unfold copyMethod1
  simp only []
  repeat' split
  all_goals simp

/-- Method 2 of `copyLog` only extends the log. -/
theorem copyMethod2_log_extends (env : Env) (content : String) (st : Page × Bool) :
    st.1.logEntries <+: (copyMethod2 env content st).1.logEntries := by
  unfold copyMethod2
  simp only []
  repeat' split
  all_goals simp

/-- Method 3 of `copyLog` only extends the log. -/
theorem copyMethod3_log_extends (env : Env) (content : String) (st : Page × Bool) :
    st.1.logEntries <+: (copyMethod3 env content st).1.logEntries := by
  unfold copyMethod3
  simp only []
  repeat' split
  all_goals simp

/-- The function `copyLog` only extends the log. -/
theorem copyLog_log_extends (env : Env) (s : Page) :
    s.logEntries <+: (copyLog env s).logEntries := by
  unfold copyLog copySucceeded
  simp only []
  generalize joinLines (log env "用户点击了复制日志按钮" s).logEntries = content
  have h0 : s.logEntries <+: (log env "用户点击了复制日志按钮" s).logEntries := by simp
  have h3 : s.logEntries <+: (copyMethod3 env content (copyMethod2 env content
      (copyMethod1 env content (log env "用户点击了复制日志按钮" s)))).1.logEntries :=
    ((h0.trans (copyMethod1_log_extends env content _)).trans
      (copyMethod2_log_extends env content _)).trans (copyMethod3_log_extends env content _)
  generalize copyMethod3 env content (copyMethod2 env content
      (copyMethod1 env content (log env "用户点击了复制日志按钮" s))) = st at h3 ⊢
  repeat' split
  all_goals refine h3.trans ?_
  all_goals simp [initial_append_append]

/-- C6: the log is append-only under every operation of the page: for every state and
every operation, the log before the operation is an initial segment of the log after
it, so no entry is changed, moved or removed. -/
theorem log_append_only (env : Env) (op : Op) (s : Page) :
    s.logEntries <+: (op.run env s).logEntries := by
  cases op with
  | log message => simp [Op.run]
  | showTab tabId =>
    simp only [Op.run, showTab]
    split <;> simp
  | openDebugModal => simp [Op.run, openDebugModal, initial_append_append]
  | closeDebugModal => simp [Op.run, closeDebugModal, initial_append_append]
  | generateQRCode retryCount maxRetries =>
    exact generateQRCode_log_extends env maxRetries _ retryCount s rfl
  | downloadQRCode =>
    simp only [Op.run, downloadQRCode]
    split <;> simp [initial_append_append]
  | parseQRCode => exact parseQRCode_log_extends env s
  | downloadLog => simp [Op.run, downloadLog, initial_append_append]
  | copyLog => exact copyLog_log_extends env s

/-! ## Clipboard fallback chain -/

/-- What method 1 adds to the trace, and the value of `success` it leaves. -/
theorem copyMethod1_spec (env : Env) (content : String) (s : Page) :
    (copyMethod1 env content s).1.calls =
      s.calls ++ (if env.hasWriteText then [.writeText content (env.writeText content)]
        else []) ∧
    (copyMethod1 env content s).2 =
      (env.hasWriteText && (Call.writeText content (env.writeText content)).succeeded) ∧
    (copyMethod1 env content s).1.debugLog.isSome = s.debugLog.isSome := by
  unfold copyMethod1
  cases hb : env.hasWriteText <;> rcases hw : env.writeText content with m | u <;>
    simp [Call.succeeded]

/-- What method 2 adds to the trace, and the value of `success` it leaves. -/
theorem copyMethod2_spec (env : Env) (content : String) (st : Page × Bool) :
    (copyMethod2 env content st).1.calls =
      st.1.calls ++ (if st.2 then [] else [.execCommand content (env.execCommand content)]) ∧
    (copyMethod2 env content st).2 =
      (st.2 || (Call.execCommand content (env.execCommand content)).succeeded) ∧
    (copyMethod2 env content st).1.debugLog.isSome = st.1.debugLog.isSome := by
  unfold copyMethod2
  obtain ⟨s, b⟩ := st
  cases b <;> rcases hx : env.execCommand content with m | (_ | _) <;>
    simp [Call.succeeded]

/-- What method 3 adds to the trace, and the value of `success` it leaves. -/
theorem copyMethod3_spec (env : Env) (content : String) (st : Page × Bool) :
    (copyMethod3 env content st).1.calls =
      st.1.calls ++ (if !st.2 && env.hasWrite then [.write content (env.write content)]
        else []) ∧
    (copyMethod3 env content st).2 =
      (st.2 || (env.hasWrite && (Call.write content (env.write content)).succeeded)) ∧
    (copyMethod3 env content st).1.debugLog.isSome = st.1.debugLog.isSome := by
  unfold copyMethod3
  obtain ⟨s, b⟩ := st
  cases b <;> cases hb : env.hasWrite <;> rcases hy : env.write content with m | u <;>
    simp [Call.succeeded]

/-- The calls of one `copyLog`, in terms of the three mechanism calls `w`, `x`, `y` it
may make on the joined log: each method's call if the method is entered, then the
closing alerts (and the manual selection when nothing succeeded). -/
theorem copyLog_newCalls (env : Env) (s : Page) :
    ∃ content : String, content = logContent env s ∧
      newCalls s (copyLog env s) =
        (if env.hasWriteText then [.writeText content (env.writeText content)] else []) ++
        (if env.hasWriteText && (Call.writeText content (env.writeText content)).succeeded
          then [] else [.execCommand content (env.execCommand content)]) ++
        (if !((env.hasWriteText &&
                (Call.writeText content (env.writeText content)).succeeded) ||
              (Call.execCommand content (env.execCommand content)).succeeded) &&
            env.hasWrite
          then [.write content (env.write content)] else []) ++
        (if (env.hasWriteText &&
                (Call.writeText content (env.writeText content)).succeeded) ||
              (Call.execCommand content (env.execCommand content)).succeeded ||
              (env.hasWrite && (Call.write content (env.write content)).succeeded)
          then [.alert "✅ 复制成功！"]
          else if s.debugLog.isSome
            then [.selectLog, .alert "⚠️ 请手动按 Ctrl+C 复制选中内容", .setTimeout 100,
              .alert "✅ 复制成功！"]
            else [.alert "❌ 复制过程中发生意外错误"]) := by
  refine ⟨_, rfl, ?_⟩
  apply newCalls_of_append
  unfold copyLog copySucceeded
  simp only []
  have e : joinLines (log env "用户点击了复制日志按钮" s).logEntries = logContent env s := by
    simp [logContent, stamp, timestamp]
  rw [e]
  generalize logContent env s = content
  obtain ⟨a1, b1, c1⟩ := copyMethod1_spec env content (log env "用户点击了复制日志按钮" s)
  obtain ⟨a2, b2, c2⟩ := copyMethod2_spec env content
    (copyMethod1 env content (log env "用户点击了复制日志按钮" s))
  obtain ⟨a3, b3, c3⟩ := copyMethod3_spec env content (copyMethod2 env content
    (copyMethod1 env content (log env "用户点击了复制日志按钮" s)))
  rw [b1] at a2 b2
  rw [b2] at a3 b3
  rw [a2, a1] at a3
  rw [c2, c1] at c3
  generalize copyMethod3 env content (copyMethod2 env content
    (copyMethod1 env content (log env "用户点击了复制日志按钮" s))) = st at a3 b3 c3 ⊢
  obtain ⟨s3, f3⟩ := st
  simp only at a3 b3 c3 ⊢
  subst b3
  have hd : s3.debugLog.isSome = s.debugLog.isSome := by
    rw [c3]; simp
  cases hs : (env.hasWriteText &&
      (Call.writeText content (env.writeText content)).succeeded ||
    (Call.execCommand content (env.execCommand content)).succeeded ||
    env.hasWrite && (Call.write content (env.write content)).succeeded)
  · rcases hp : s3.debugLog with _ | p
    · have : s.debugLog.isSome = false := by rw [← hd, hp]; rfl
      simp [hp, this, a3, log_calls]
    · have : s.debugLog.isSome = true := by rw [← hd, hp]; rfl
      simp [hp, this, a3, call, alert]
  · simp [a3]


/-- The chain property for a trace built from three mechanism calls `w`, `x`, `y`, the
manual selection `sel` and neutral calls, according to availability and outcomes. -/
theorem chain_of_outcomes (w x y a sel a2 tm a3 : Call) (b1 b3 p : Bool)
    (hw : w.mechanism = some .directWrite) (hx : x.mechanism = some .legacyCommand)
    (hy : y.mechanism = some .dataWrite) (hsel : sel.mechanism = some .manualFallback)
    (ha : a.mechanism = none) (ha2 : a2.mechanism = none) (htm : tm.mechanism = none)
    (ha3 : a3.mechanism = none)
    (sa : a.succeeded = false) (sa2 : a2.succeeded = false) (stm : tm.succeeded = false)
    (sa3 : a3.succeeded = false) (ssel : sel.succeeded = false)
    (new : List Call)
    (hnew : new = (if b1 then [w] else []) ++
        (if b1 && w.succeeded then [] else [x]) ++
        (if !((b1 && w.succeeded) || x.succeeded) && b3 then [y] else []) ++
        (if (b1 && w.succeeded) || x.succeeded || (b3 && y.succeeded) then [a]
          else if p then [sel, a2, tm, a] else [a3])) :
    List.Sublist (attempted new)
      [.directWrite, .legacyCommand, .dataWrite, .manualFallback] ∧
    new.Pairwise (fun c d => c.succeeded = true → d.mechanism = none) ∧
    (Mechanism.directWrite ∈ attempted new ↔ b1 = true) ∧
    (Mechanism.legacyCommand ∈ attempted new ↔
      ∀ c ∈ new, c.mechanism = some .directWrite → c.succeeded = false) ∧
    (Mechanism.dataWrite ∈ attempted new ↔
      b3 = true ∧ ∀ c ∈ new, c.mechanism ≠ some .dataWrite → c.succeeded = false) ∧
    (Mechanism.manualFallback ∈ attempted new ↔
      p = true ∧ ∀ c ∈ new, c.succeeded = false) := by
  subst hnew
  cases b1 <;> cases b3 <;> cases p <;> cases hws : w.succeeded <;>
    cases hxs : x.succeeded <;> cases hys : y.succeeded <;>
    simp [attempted, *]

/-- C4: for every outcome of the clipboard mechanisms, the mechanisms `copyLog`
attempts are, in order, a selection from direct-write, legacy-command, data-write,
manual-fallback, each at most once; no mechanism is attempted after one that succeeded;
direct-write is attempted when its API is there, legacy-command when direct-write did
not succeed, data-write when its API is there and neither earlier one succeeded, and
manual-fallback only when none of the three succeeded (and then always, the log panel
being there). -/
theorem copyLog_fallback_chain (env : Env) (s : Page) :
    List.Sublist (attempted (newCalls s (copyLog env s)))
      [.directWrite, .legacyCommand, .dataWrite, .manualFallback] ∧
    (newCalls s (copyLog env s)).Pairwise
      (fun c d => c.succeeded = true → d.mechanism = none) ∧
    (Mechanism.directWrite ∈ attempted (newCalls s (copyLog env s)) ↔
      env.hasWriteText = true) ∧
    (Mechanism.legacyCommand ∈ attempted (newCalls s (copyLog env s)) ↔
      ∀ c ∈ newCalls s (copyLog env s),
        c.mechanism = some .directWrite → c.succeeded = false) ∧
    (Mechanism.dataWrite ∈ attempted (newCalls s (copyLog env s)) ↔
      env.hasWrite = true ∧ ∀ c ∈ newCalls s (copyLog env s),
        c.mechanism ≠ some .dataWrite → c.succeeded = false) ∧
    (Mechanism.manualFallback ∈ attempted (newCalls s (copyLog env s)) ↔
      s.debugLog.isSome = true ∧
        ∀ c ∈ newCalls s (copyLog env s), c.succeeded = false) := by
  obtain ⟨content, -, hnew⟩ := copyLog_newCalls env s
  exact chain_of_outcomes (.writeText content (env.writeText content))
    (.execCommand content (env.execCommand content)) (.write content (env.write content))
    (.alert "✅ 复制成功！") .selectLog (.alert "⚠️ 请手动按 Ctrl+C 复制选中内容")
    (.setTimeout 100) (.alert "❌ 复制过程中发生意外错误")
    env.hasWriteText env.hasWrite s.debugLog.isSome
    rfl rfl rfl rfl rfl rfl rfl rfl rfl rfl rfl rfl rfl _ hnew

/-- C5, amended: when mechanisms 1 and 2 fail and mechanism 3 succeeds, one `copyLog`
appends five entries: the entry for the click, one entry per attempted mechanism (two
failures with their reasons, then the success of mechanism 3), and the entry for the
success prompt; the attempted mechanisms are the three automatic ones. -/
theorem copyLog_entries_third_method (env : Env) (s : Page) (reason : String)
    (h1 : env.hasWriteText = true)
    (hw : env.writeText (logContent env s) = .error reason)
    (hx : env.execCommand (logContent env s) ≠ .ok true)
    (h3 : env.hasWrite = true)
    (hy : env.write (logContent env s) = .ok ()) :
    newEntries s (copyLog env s) =
      [logEntry (stamp env s 0) "用户点击了复制日志按钮",
       logEntry (stamp env s 1) ("方法1失败：" ++ reason),
       logEntry (stamp env s 2)
         ("方法2失败：" ++ execFailureMessage (env.execCommand (logContent env s))),
       logEntry (stamp env s 3) "方法3：ClipboardItem API复制成功",
       logEntry (stamp env s 4) "用户收到成功提示"] ∧
    attempted (newCalls s (copyLog env s)) =
      [.directWrite, .legacyCommand, .dataWrite] := by
  have e : joinLines (log env "用户点击了复制日志按钮" s).logEntries = logContent env s := by
    simp [logContent, stamp, timestamp]
  unfold copyLog copySucceeded
  simp only []
  rw [e]
  generalize logContent env s = content at hw hx hy ⊢
  rcases hx2 : env.execCommand content with m2 | (_ | _)
  · simp [copyMethod1, copyMethod2, copyMethod3, h1, hw, hx2, h3, hy, newEntries, newCalls,
      attempted, Call.mechanism, execFailureMessage, stamp, timestamp]
  · simp [copyMethod1, copyMethod2, copyMethod3, h1, hw, hx2, h3, hy, newEntries, newCalls,
      attempted, Call.mechanism, execFailureMessage, stamp, timestamp]
  · exact absurd hx2 hx

/-- Witness of C5 (amended): the sample collaborators, whose methods 1 and 2 fail and
whose method 3 succeeds. -/
theorem copyLog_entries_third_method_witness :
    sampleEnv.hasWriteText = true ∧
    sampleEnv.writeText (logContent sampleEnv samplePage) = .error "NotAllowedError" ∧
    sampleEnv.execCommand (logContent sampleEnv samplePage) ≠ .ok true ∧
    sampleEnv.hasWrite = true ∧
    sampleEnv.write (logContent sampleEnv samplePage) = .ok () ∧
    newEntries samplePage (copyLog sampleEnv samplePage) =
      [logEntry (stamp sampleEnv samplePage 0) "用户点击了复制日志按钮",
       logEntry (stamp sampleEnv samplePage 1) ("方法1失败：" ++ "NotAllowedError"),
       logEntry (stamp sampleEnv samplePage 2)
         ("方法2失败：" ++
           execFailureMessage (sampleEnv.execCommand (logContent sampleEnv samplePage))),
       logEntry (stamp sampleEnv samplePage 3) "方法3：ClipboardItem API复制成功",
       logEntry (stamp sampleEnv samplePage 4) "用户收到成功提示"] ∧
    attempted (newCalls samplePage (copyLog sampleEnv samplePage)) =
      [.directWrite, .legacyCommand, .dataWrite] :=
  ⟨rfl, rfl, by decide, rfl, rfl,
    copyLog_entries_third_method sampleEnv samplePage "NotAllowedError" rfl rfl
      (by decide) rfl rfl⟩

/-- C5, as stated, fails: with the sample collaborators (methods 1 and 2 fail, method 3
succeeds) three mechanisms are attempted and five entries are recorded, not four: the
entry for the click comes on top of the three mechanism entries and the success
entry. -/
theorem copyLog_entry_count_counterexample :
    attempted (newCalls samplePage (copyLog sampleEnv samplePage)) =
      [.directWrite, .legacyCommand, .dataWrite] ∧
    newEntries samplePage (copyLog sampleEnv samplePage) =
      ["[2024-05-01 12:00:00] 用户点击了复制日志按钮",
       "[2024-05-01 12:00:00] 方法1失败：NotAllowedError",
       "[2024-05-01 12:00:00] 方法2失败：execCommand返回失败",
       "[2024-05-01 12:00:00] 方法3：ClipboardItem API复制成功",
       "[2024-05-01 12:00:00] 用户收到成功提示"] ∧
    ¬ ((newEntries samplePage (copyLog sampleEnv samplePage)).length =
        (attempted (newCalls samplePage (copyLog sampleEnv samplePage))).length + 1) := by
  decide

end QRPage
